import Mathlib

/-!
Verification of the travel-suggestion app's itinerary synthesis pipeline.

Shallow embedding of:
* the `generate-plan` route handler (`POST`): body parsing, day-count
  computation, credential check, upstream completion call, JSON extraction
  via the greedy regex, `JSON.parse`, fallback substitution, and the
  error response of the outer catch;
* `createFallbackPlan`, the deterministic template itinerary builder;
* the `get-images` route handler;
* the location-collection / deduplication / enrichment steps of the
  page's `onSubmit`.

Modelling conventions: calendar dates are epoch-day integers, so
`differenceInDays` is subtraction, `addDays` is addition, and the
`yyyy-MM-dd` formatting of a date is represented by the day number itself.
The upstream HTTP calls are an explicit outcome parameter (network error,
non-success response, or a success carrying the response content), and the
environment variables are an explicit record of optional credentials.
-/

/-- A JSON value, as produced by `JSON.parse` in the route handler. -/
inductive Json where
  | null
  | bool (b : Bool)
  | num (n : Int)
  | str (s : String)
  | arr (elems : List Json)
  | obj (fields : List (String × Json))

/-- JSON insignificant whitespace: space, tab, line feed, carriage return. -/
def skipWs : List Char → List Char
  | [] => []
  | c :: cs =>
    if c = ' ' ∨ c = '\t' ∨ c = '\n' ∨ c = '\r' then skipWs cs else c :: cs

/-- Translation of a JSON string escape character to the character it denotes. -/
def escChar (c : Char) : Option Char :=
  if c = '"' then some '"'
  else if c = '\\' then some '\\'
  else if c = '/' then some '/'
  else if c = 'n' then some '\n'
  else if c = 't' then some '\t'
  else if c = 'r' then some '\r'
  else if c = 'b' then some (Char.ofNat 8)
  else if c = 'f' then some (Char.ofNat 12)
  else none

/-- Body of a JSON string literal after the opening quote: accumulates
characters until the closing quote, resolving escapes via `escChar`
(the `\uXXXX` form, unused by this application's payloads, is not modelled). -/
def parseStrAux : List Char → List Char → Option (String × List Char)
  | _, [] => none
  | acc, c :: rest =>
    if c = '"' then some (String.mk acc.reverse, rest)
    else if c = '\\' then
      match rest with
      | [] => none
      | e :: rest2 =>
        match escChar e with
        | some ec => parseStrAux (ec :: acc) rest2
        | none => none
    else parseStrAux (c :: acc) rest

/-- Splits a maximal prefix of decimal digits from the input. -/
def takeDigits : List Char → List Char × List Char
  | [] => ([], [])
  | c :: rest =>
    if c.isDigit then
      match takeDigits rest with
      | (ds, r) => (c :: ds, r)
    else ([], c :: rest)

/-- Numeric value of a digit sequence. -/
def digitsVal (ds : List Char) : Nat :=
  ds.foldl (fun n c => 10 * n + (c.toNat - 48)) 0

/-- A JSON number: optional minus sign then digits (the fractional and
exponent forms, unused by this application's payloads, are not modelled). -/
def parseNum (cs : List Char) : Option (Json × List Char) :=
  match cs with
  | '-' :: rest =>
    match takeDigits rest with
    | ([], _) => none
    | (ds, r) => some (.num (-(digitsVal ds : Int)), r)
  | _ =>
    match takeDigits cs with
    | ([], _) => none
    | (ds, r) => some (.num (digitsVal ds), r)

mutual

/-- A JSON value, fuel-indexed. -/
def parseVal : Nat → List Char → Option (Json × List Char)
  | 0, _ => none
  | fuel + 1, cs =>
    match skipWs cs with
    | 'n' :: 'u' :: 'l' :: 'l' :: rest => some (.null, rest)
    | 't' :: 'r' :: 'u' :: 'e' :: rest => some (.bool true, rest)
    | 'f' :: 'a' :: 'l' :: 's' :: 'e' :: rest => some (.bool false, rest)
    | '"' :: rest =>
      match parseStrAux [] rest with
      | some (s, r) => some (.str s, r)
      | none => none
    | '{' :: rest =>
      match skipWs rest with
      | '}' :: r => some (.obj [], r)
      | cs2 =>
        match parseFields fuel cs2 with
        | some (fs, r) => some (.obj fs, r)
        | none => none
    | '[' :: rest =>
      match skipWs rest with
      | ']' :: r => some (.arr [], r)
      | cs2 =>
        match parseElems fuel cs2 with
        | some (es, r) => some (.arr es, r)
        | none => none
    | cs1 => parseNum cs1

/-- One or more `"key": value` pairs, comma separated, then the closing brace. -/
def parseFields : Nat → List Char → Option (List (String × Json) × List Char)
  | 0, _ => none
  | fuel + 1, cs =>
    match skipWs cs with
    | '"' :: rest =>
      match parseStrAux [] rest with
      | some (key, r1) =>
        match skipWs r1 with
        | ':' :: r2 =>
          match parseVal fuel r2 with
          | some (v, r3) =>
            match skipWs r3 with
            | ',' :: r4 =>
              match parseFields fuel r4 with
              | some (fs, r5) => some ((key, v) :: fs, r5)
              | none => none
            | '}' :: r4 => some ([(key, v)], r4)
            | _ => none
          | none => none
        | _ => none
      | none => none
    | _ => none

/-- One or more array elements, comma separated, then the closing bracket. -/
def parseElems : Nat → List Char → Option (List Json × List Char)
  | 0, _ => none
  | fuel + 1, cs =>
    match parseVal fuel cs with
    | some (v, r1) =>
      match skipWs r1 with
      | ',' :: r2 =>
        match parseElems fuel r2 with
        | some (es, r3) => some (v :: es, r3)
        | none => none
      | ']' :: r2 => some ([v], r2)
      | _ => none
    | none => none

end

/-- Model of `JSON.parse`: one complete JSON value, with only trailing
whitespace permitted after it, as in the route handler's
`JSON.parse(jsonMatch[0])`. The fuel `2 * length + 2` dominates the
recursion depth, which consumes at least one character every two steps. -/
def Json.parse (s : String) : Option Json :=
  match parseVal (2 * s.length + 2) s.data with
  | some (j, rest) => if (skipWs rest).isEmpty then some j else none
  | none => none

/-- Drops characters before the first occurrence of `c`; returns the suffix
beginning with `c`, or `none` when `c` never occurs. -/
def dropBefore (c : Char) : List Char → Option (List Char)
  | [] => none
  | x :: xs => if x = c then some (x :: xs) else dropBefore c xs

/-- Model of `content.match(/\x7b[\s\S]*\x7d/)`: the leftmost-greedy match
runs from the first opening brace to the last closing brace of the whole
text, and exists exactly when some closing brace follows some opening one. -/
def extractJson (content : String) : Option String :=
  match dropBefore '{' content.data with
  | none => none
  | some suffix =>
    match dropBefore '}' suffix.reverse with
    | none => none
    | some revSpan => some (String.mk revSpan.reverse)

/-- Modelled from the spec: the first balanced brace-delimited span of the
text, by brace counting from the first opening brace. Stated only to compare
the specified extraction rule with the implemented one (`extractJson`). -/
def balancedSpanAux : Nat → List Char → List Char → Option (List Char)
  | _, _, [] => none
  | depth, acc, c :: rest =>
    if c = '{' then balancedSpanAux (depth + 1) (c :: acc) rest
    else if c = '}' then
      if depth = 1 then some (c :: acc).reverse
      else if depth = 0 then none
      else balancedSpanAux (depth - 1) (c :: acc) rest
    else balancedSpanAux depth (c :: acc) rest

/-- Modelled from the spec: first balanced span, entry point. -/
def firstBalancedSpanSpec (content : String) : Option String :=
  match dropBefore '{' content.data with
  | none => none
  | some suffix => (balancedSpanAux 0 [] suffix).map String.mk

/-- One itinerary activity, as in the page's `TravelPlanDay` type and the
fallback template. The `type` field is free text at this level; the valid
values are `activityTypes`. -/
structure Activity where
  time : String
  activity : String
  location : String
  description : String
  type : String
deriving DecidableEq

/-- One itinerary day. The `date` is an epoch-day number standing for the
`yyyy-MM-dd` formatted date of the source. -/
structure TravelPlanDay where
  day : Nat
  date : Int
  activities : List Activity
deriving DecidableEq

/-- A travel plan, as in the page's `TravelPlan` type and the fallback
builder's result. -/
structure TravelPlan where
  destination : String
  summary : String
  days : List TravelPlanDay
deriving DecidableEq

/-- The four enumerated activity types of the schema. -/
def activityTypes : List String :=
  ["sightseeing", "meal", "accommodation", "transportation"]

/-- The canonical six-activity template pushed for every fallback day. -/
def fallbackActivities (destination travelStyle : String) : List Activity :=
  [⟨"08:00", "朝食", destination ++ "のホテルレストラン", "ホテルでの朝食", "meal"⟩,
   ⟨"10:00", destination ++ "観光", destination ++ "の人気スポット",
     travelStyle ++ "を楽しむ", "sightseeing"⟩,
   ⟨"12:30", "昼食", destination ++ "のローカルレストラン", "地元の料理を楽しむ", "meal"⟩,
   ⟨"14:00", "アクティビティ", destination ++ "のアクティビティスポット",
     travelStyle ++ "に関連したアクティビティ", "sightseeing"⟩,
   ⟨"18:00", "夕食", destination ++ "の評価の高いレストラン", "特別な夕食", "meal"⟩,
   ⟨"20:00", "宿泊", destination ++ "のホテル", "快適なホテルでの宿泊", "accommodation"⟩]

/-- `createFallbackPlan(destination, numberOfDays, startDate, travelStyle)`:
the loop `for i in 0..numberOfDays-1` pushing day `i+1` dated
`addDays(startDate, i)` with the six template activities, then the summary
template. The loop body runs `numberOfDays.toNat` times, as a JS `for` loop
runs zero times on a non-positive bound. -/
def createFallbackPlan (destination : String) (numberOfDays : Int)
    (startDate : Int) (travelStyle : String) : TravelPlan :=
  { destination := destination
    summary := destination ++ "への" ++ toString numberOfDays ++
      "日間の旅行プランです。" ++ travelStyle ++
      "を中心に、地元の文化や料理を楽しむことができます。主要な観光スポットを訪れながら、" ++
      destination ++ "の魅力を存分に体験できるプランになっています。"
    days := (List.range numberOfDays.toNat).map fun i =>
      { day := i + 1
        date := startDate + i
        activities := fallbackActivities destination travelStyle } }

/-- The JSON value serialized for one activity. -/
def activityToJson (a : Activity) : Json :=
  .obj [("time", .str a.time), ("activity", .str a.activity),
        ("location", .str a.location), ("description", .str a.description),
        ("type", .str a.type)]

/-- The JSON value serialized for one day. -/
def dayToJson (d : TravelPlanDay) : Json :=
  .obj [("day", .num d.day), ("date", .num d.date),
        ("activities", .arr (d.activities.map activityToJson))]

/-- The JSON value serialized for a plan, as `NextResponse.json` emits it. -/
def planToJson (p : TravelPlan) : Json :=
  .obj [("destination", .str p.destination), ("summary", .str p.summary),
        ("days", .arr (p.days.map dayToJson))]

/-- JS property lookup on a JSON value (last assignment wins on duplicates). -/
def Json.getField : Json → String → Option Json
  | .obj fields, key => ((fields.filter fun p => p.fst == key).getLast?).map Prod.snd
  | _, _ => none

/-- Length of the `days` array of a JSON plan, when it is one. -/
def jsonDaysLength (j : Json) : Option Nat :=
  match j.getField "days" with
  | some (.arr elems) => some elems.length
  | _ => none

/-- The `dateRange` object of the request body; dates are epoch-day numbers. -/
structure DateRange where
  fromDate : Int
  toDate : Int
deriving DecidableEq

/-- The parsed body of a generate-plan request. An absent `dateRange` field
(JS `undefined`) is `none`; accessing `.from` on it throws. -/
structure PlanRequestBody where
  destination : String
  budget : String
  people : String
  dateRange : Option DateRange
  travelStyle : String

/-- The environment of the generate-plan route: `process.env.DEEPSEEK_API_KEY`. -/
structure PlanEnv where
  deepseekApiKey : Option String

/-- Outcome of the single upstream completion call: a network-level error,
a non-success (`!response.ok`) response, or a success whose
`choices[0].message.content` is the given text. -/
inductive UpstreamResult where
  | networkError
  | httpError
  | ok (content : String)
deriving DecidableEq

/-- A `NextResponse.json(body, status)` value. -/
inductive ApiResult where
  | json (body : Json) (status : Nat)

/-- The body and status the outer catch returns. -/
def errorResponse : ApiResult :=
  .json (.obj [("error", .str "Failed to generate travel plan")]) 500

/-- The generate-plan `POST` handler. `body` is the result of
`request.json()` (`none` when it rejects); an absent `dateRange` throws on
`.from` access; a missing key or failed upstream call throws; every throw
lands in the outer catch, which returns `errorResponse`. On upstream
success the greedy brace span is extracted and parsed, a parse failure
being replaced by the fallback plan; the chosen value is returned with
status 200. -/
def POST (env : PlanEnv) (body : Option PlanRequestBody)
    (upstream : UpstreamResult) : ApiResult :=
  match body with
  | none => errorResponse
  | some b =>
    match b.dateRange with
    | none => errorResponse
    | some dr =>
      let startDate := dr.fromDate
      let numberOfDays : Int := dr.toDate - dr.fromDate + 1
      match env.deepseekApiKey with
      | none => errorResponse
      | some _ =>
        match upstream with
        | .networkError => errorResponse
        | .httpError => errorResponse
        | .ok content =>
          let travelPlan : Json :=
            match extractJson content with
            | some s =>
              match Json.parse s with
              | some j => j
              | none =>
                planToJson (createFallbackPlan b.destination numberOfDays
                  startDate b.travelStyle)
            | none =>
              planToJson (createFallbackPlan b.destination numberOfDays
                startDate b.travelStyle)
          .json travelPlan 200

/-- The environment of the get-images route: the Google Custom Search key
and scope identifier. -/
structure ImagesEnv where
  apiKey : Option String
  cx : Option String

/-- One result item of the image search response. -/
structure SearchItem where
  link : String
deriving DecidableEq

/-- Outcome of the image-search call: network error, non-success response,
or success carrying the (possibly empty) `items` array. -/
inductive SearchUpstream where
  | networkError
  | httpError
  | ok (items : List SearchItem)
deriving DecidableEq

/-- The get-images response: always a body with an `imageUrl` field. -/
structure ImagesResult where
  imageUrl : String
  status : Nat
deriving DecidableEq

/-- The get-images `POST` handler. A body parse failure or any thrown error
is caught and answered with the placeholder at status 200; missing
credentials and an empty result set are answered with the placeholder
directly; otherwise the first item's link is returned. -/
def getImagesPOST (env : ImagesEnv) (body : Option String)
    (upstream : SearchUpstream) : ImagesResult :=
  match body with
  | none => ⟨"/placeholder.svg", 200⟩
  | some _query =>
    if env.apiKey.isNone || env.cx.isNone then ⟨"/placeholder.svg", 200⟩
    else
      match upstream with
      | .networkError => ⟨"/placeholder.svg", 200⟩
      | .httpError => ⟨"/placeholder.svg", 200⟩
      | .ok items =>
        match items with
        | [] => ⟨"/placeholder.svg", 200⟩
        | item :: _ => ⟨item.link, 200⟩

/-- One entry of the page's `images` state. -/
structure ImageResult where
  location : String
  imageUrl : String
deriving DecidableEq

/-- `planData.days.flatMap(day => day.activities.map(a => a.location))`. -/
def collectLocations (plan : TravelPlan) : List String :=
  (plan.days.map fun d => d.activities.map fun a => a.location).flatten

/-- Deduplication with a seen-set accumulator; `[...new Set(locations)]`
keeps the first occurrence of each element in encounter order. -/
def dedupFirstAux (seen : List String) : List String → List String
  | [] => []
  | x :: xs =>
    if x ∈ seen then dedupFirstAux seen xs
    else x :: dedupFirstAux (x :: seen) xs

/-- The `uniqueLocations` list of `onSubmit`. -/
def uniqueLocations (plan : TravelPlan) : List String :=
  dedupFirstAux [] (collectLocations plan)

/-- The per-location fetch of `onSubmit`: a non-ok response gives the
placeholder, and an ok response's `imageUrl` passes through
`imageData.imageUrl || "/placeholder.svg"`, so an empty string also gives
the placeholder. `fetchImage` is the outcome of the get-images call for a
location (`none` for a non-ok response). -/
def enrichEntry (fetchImage : String → Option String) (location : String) :
    ImageResult :=
  match fetchImage location with
  | none => ⟨location, "/placeholder.svg"⟩
  | some url => ⟨location, if url = "" then "/placeholder.svg" else url⟩

/-- The image-results list `onSubmit` builds for the unique locations. -/
def enrichLocations (plan : TravelPlan) (fetchImage : String → Option String) :
    List ImageResult :=
  (uniqueLocations plan).map (enrichEntry fetchImage)

/-- Reference form of first-seen deduplication: keep the head, delete its
later occurrences, recurse. Stated independently of the accumulator
formulation to characterise the order `uniqueLocations` preserves. -/
def dedupKeepFirst : List String → List String
  | [] => []
  | x :: xs => x :: dedupKeepFirst (xs.filter fun y => y ≠ x)
termination_by l => l.length
decreasing_by
  simp only [List.length_cons]
  exact Nat.lt_succ_of_le (List.length_filter_le _ _)

/-- Structural validity of a plan for a requested day count `n`: the day
count matches, the day numbers are exactly `1..n` in order, and every
activity's type is one of the four enumerated values. -/
def validPlan (p : TravelPlan) (n : Nat) : Prop :=
  p.days.length = n ∧
  p.days.map (fun d => d.day) = List.range' 1 n ∧
  ∀ d ∈ p.days, ∀ a ∈ d.activities, a.type ∈ activityTypes

instance (p : TravelPlan) (n : Nat) : Decidable (validPlan p n) := by
  unfold validPlan; infer_instance

theorem validPlan_createFallbackPlan (destination travelStyle : String)
    (n startDate : Int) :
    validPlan (createFallbackPlan destination n startDate travelStyle) n.toNat := by
  refine ⟨by simp [createFallbackPlan], ?_, ?_⟩
  · simp only [createFallbackPlan, List.map_map, List.range'_eq_map_range]
    exact List.map_congr_left fun i _ => Nat.add_comm i 1
  · intro d hd a ha
    simp only [createFallbackPlan, List.mem_map] at hd
    obtain ⟨i, -, rfl⟩ := hd
    simp only [fallbackActivities, List.mem_cons, List.not_mem_nil, or_false] at ha
    rcases ha with rfl | rfl | rfl | rfl | rfl | rfl <;> simp [activityTypes]

theorem jsonDaysLength_planToJson (p : TravelPlan) :
    jsonDaysLength (planToJson p) = some p.days.length := by
  have h : jsonDaysLength (planToJson p) = some (p.days.map dayToJson).length := rfl
  rw [h, List.length_map]

theorem json_ne_of_daysLength {a b : Json}
    (h : jsonDaysLength a ≠ jsonDaysLength b) : a ≠ b :=
  fun e => h (by rw [e])

theorem POST_ok_fallback (env : PlanEnv) (key : String) (b : PlanRequestBody)
    (dr : DateRange) (content : String)
    (hk : env.deepseekApiKey = some key) (hdr : b.dateRange = some dr)
    (hfail : extractJson content = none ∨
      ∃ s, extractJson content = some s ∧ Json.parse s = none) :
    POST env (some b) (.ok content) =
      .json (planToJson (createFallbackPlan b.destination
        (dr.toDate - dr.fromDate + 1) dr.fromDate b.travelStyle)) 200 := by
  rcases hfail with h | ⟨s, hs, hp⟩
  · simp [POST, hk, hdr, h]
  · simp [POST, hk, hdr, hs, hp]

theorem POST_ok_passthrough (env : PlanEnv) (key : String)
    (b : PlanRequestBody) (dr : DateRange) (content s : String) (j : Json)
    (hk : env.deepseekApiKey = some key) (hdr : b.dateRange = some dr)
    (hs : extractJson content = some s) (hp : Json.parse s = some j) :
    POST env (some b) (.ok content) = .json j 200 := by
  simp [POST, hk, hdr, hs, hp]

theorem POST_transport_error (env : PlanEnv) (b : PlanRequestBody)
    (dr : DateRange) (upstream : UpstreamResult) (hdr : b.dateRange = some dr)
    (h : env.deepseekApiKey = none ∨ upstream = .networkError ∨
      upstream = .httpError) :
    POST env (some b) upstream = errorResponse := by
  rcases h with h | h | h
  · simp [POST, hdr, h]
  · subst h; cases hk : env.deepseekApiKey <;> simp [POST, hdr, hk]
  · subst h; cases hk : env.deepseekApiKey <;> simp [POST, hdr, hk]

theorem POST_bad_request (env : PlanEnv) (body : Option PlanRequestBody)
    (upstream : UpstreamResult)
    (h : body = none ∨ ∃ b, body = some b ∧ b.dateRange = none) :
    POST env body upstream = errorResponse := by
  rcases h with rfl | ⟨b, rfl, hdr⟩
  · rfl
  · simp [POST, hdr]

theorem dropBefore_append_of_not_mem (c : Char) (p l : List Char)
    (hp : c ∉ p) : dropBefore c (p ++ l) = dropBefore c l := by
  induction p with
  | nil => rfl
  | cons x xs ih =>
    simp only [List.mem_cons, not_or] at hp
    have hx : ¬ x = c := fun e => hp.1 e.symm
    simp [dropBefore, hx, ih hp.2]

theorem dropBefore_cons_self (c : Char) (l : List Char) :
    dropBefore c (c :: l) = some (c :: l) := by
  simp [dropBefore]

theorem extractJson_prose (proseL sL : List Char) (hp : '{' ∉ proseL)
    (hhead : sL.head? = some '{') (hlast : sL.getLast? = some '}') :
    extractJson (String.mk (proseL ++ sL)) = some (String.mk sL) := by
  obtain ⟨t, rfl⟩ : ∃ t, sL = '{' :: t := by
    cases sL with
    | nil => simp at hhead
    | cons a t =>
      simp only [List.head?, Option.some.injEq] at hhead
      exact ⟨t, by rw [hhead]⟩
  obtain ⟨u, hu⟩ : ∃ u, ('{' :: t).reverse = '}' :: u := by
    have hrev := List.head?_reverse ('{' :: t)
    rw [hlast] at hrev
    cases hrw : ('{' :: t).reverse with
    | nil => rw [hrw] at hrev; simp at hrev
    | cons b u =>
      rw [hrw] at hrev
      simp only [List.head?, Option.some.injEq] at hrev
      exact ⟨u, by rw [hrev]⟩
  have h1 : dropBefore '{' ((String.mk (proseL ++ '{' :: t)).data) =
      some ('{' :: t) := by
    show dropBefore '{' (proseL ++ '{' :: t) = some ('{' :: t)
    rw [dropBefore_append_of_not_mem '{' proseL _ hp, dropBefore_cons_self]
  have h2 : dropBefore '}' (('{' :: t).reverse) = some (('{' :: t).reverse) := by
    rw [hu]; exact dropBefore_cons_self _ _
  simp only [extractJson, h1, h2, List.reverse_reverse]

theorem mem_dedupFirstAux (x : String) (l : List String) : ∀ seen,
    x ∈ dedupFirstAux seen l ↔ x ∈ l ∧ x ∉ seen := by
  induction l with
  | nil => intro seen; simp [dedupFirstAux]
  | cons y ys ih =>
    intro seen
    by_cases h : y ∈ seen
    · rw [dedupFirstAux, if_pos h, ih seen]
      simp only [List.mem_cons]
      constructor
      · rintro ⟨hx, hs⟩; exact ⟨Or.inr hx, hs⟩
      · rintro ⟨rfl | hx, hs⟩
        · exact absurd h hs
        · exact ⟨hx, hs⟩
    · rw [dedupFirstAux, if_neg h]
      simp only [List.mem_cons, ih (y :: seen)]
      constructor
      · rintro (rfl | ⟨hx, hs⟩)
        · exact ⟨Or.inl rfl, h⟩
        · simp only [List.mem_cons, not_or] at hs
          exact ⟨Or.inr hx, hs.2⟩
      · rintro ⟨hmem, hs⟩
        by_cases hxy : x = y
        · exact Or.inl hxy
        · right
          rcases hmem with rfl | hx
          · exact absurd rfl hxy
          · refine ⟨hx, ?_⟩
            simp only [List.mem_cons, not_or]
            exact ⟨hxy, hs⟩

theorem nodup_dedupFirstAux (l : List String) : ∀ seen,
    (dedupFirstAux seen l).Nodup := by
  induction l with
  | nil => intro seen; simp [dedupFirstAux]
  | cons y ys ih =>
    intro seen
    by_cases h : y ∈ seen
    · rw [dedupFirstAux, if_pos h]; exact ih seen
    · rw [dedupFirstAux, if_neg h]
      refine List.Nodup.cons ?_ (ih (y :: seen))
      intro hmem
      have := (mem_dedupFirstAux y ys (y :: seen)).mp hmem
      exact this.2 (List.mem_cons_self y seen)

theorem sublist_dedupFirstAux (l : List String) : ∀ seen,
    (dedupFirstAux seen l).Sublist l := by
  induction l with
  | nil => intro seen; simp [dedupFirstAux]
  | cons y ys ih =>
    intro seen
    by_cases h : y ∈ seen
    · rw [dedupFirstAux, if_pos h]; exact (ih seen).cons y
    · rw [dedupFirstAux, if_neg h]; exact (ih (y :: seen)).cons₂ y

theorem dedupFirstAux_eq_dedupKeepFirst (l : List String) : ∀ seen,
    dedupFirstAux seen l = dedupKeepFirst (l.filter fun y => y ∉ seen) := by
  induction l with
  | nil => intro seen; simp [dedupFirstAux, dedupKeepFirst]
  | cons y ys ih =>
    intro seen
    by_cases h : y ∈ seen
    · rw [dedupFirstAux, if_pos h, List.filter_cons_of_neg (by simpa using h)]
      exact ih seen
    · rw [dedupFirstAux, if_neg h, List.filter_cons_of_pos (by simpa using h)]
      rw [dedupKeepFirst, ih (y :: seen), List.filter_filter]
      congr 1
      exact congrArg dedupKeepFirst (List.filter_congr fun a _ => by
        by_cases h1 : a = y <;> by_cases h2 : a ∈ seen <;> simp [h1, h2])

/-- Fixture: a generate-plan environment with a configured credential. -/
def envWithKey : PlanEnv := ⟨some "test-key"⟩

/-- Fixture: a generate-plan environment with the credential absent. -/
def envNoKey : PlanEnv := ⟨none⟩

/-- Fixture: the spec's end-to-end request, three days from epoch day 0. -/
def kyotoBody : PlanRequestBody := ⟨"京都", "100000", "2", some ⟨0, 2⟩, "観光"⟩

/-- Fixture: a successful completion response that parses but carries an
empty `days` array for the three-day request. -/
def c1content : String := "\x7b\"destination\":\"X\",\"summary\":\"s\",\"days\":[]\x7d"

/-- The JSON value `c1content` parses to. -/
def c1modelJson : Json :=
  .obj [("destination", .str "X"), ("summary", .str "s"), ("days", .arr [])]

/-- C1, counterexample: on a three-day request, a completion response whose
JSON parses but has zero days is returned to the caller unchanged with
status 200 — no fallback substitution and no structural check occurs, so
the caller receives an itinerary whose day count is 0, not 3. -/
theorem c1_counterexample :
    POST envWithKey (some kyotoBody) (.ok c1content) = .json c1modelJson 200 ∧
    jsonDaysLength c1modelJson = some 0 ∧
    jsonDaysLength c1modelJson ≠ some 3 :=
  ⟨rfl, rfl, by decide⟩

/-- C1, amended: the synthesis endpoint returns a structurally valid
itinerary (day count `differenceInDays(end,start)+1`, day numbers `1..N`
in order, all activity types enumerated) whenever the completion response's
content fails JSON extraction or parsing, because then the fallback plan is
substituted; parseable completion output, however, is passed through without
structural validation. -/
theorem c1_fallback_structurally_valid (env : PlanEnv) (key : String)
    (b : PlanRequestBody) (dr : DateRange) (content : String)
    (hk : env.deepseekApiKey = some key) (hdr : b.dateRange = some dr)
    (hle : dr.fromDate ≤ dr.toDate)
    (hfail : extractJson content = none ∨
      ∃ s, extractJson content = some s ∧ Json.parse s = none) :
    POST env (some b) (.ok content) =
      .json (planToJson (createFallbackPlan b.destination
        (dr.toDate - dr.fromDate + 1) dr.fromDate b.travelStyle)) 200 ∧
    validPlan (createFallbackPlan b.destination
        (dr.toDate - dr.fromDate + 1) dr.fromDate b.travelStyle)
      (dr.toDate - dr.fromDate + 1).toNat :=
  ⟨POST_ok_fallback env key b dr content hk hdr hfail,
   validPlan_createFallbackPlan _ _ _ _⟩

/-- C1, witness: the amended theorem at the three-day Kyoto request and a
prose-only completion response. -/
theorem c1_witness :
    extractJson "本日はプランを提供できません" = none ∧
    (POST envWithKey (some kyotoBody) (.ok "本日はプランを提供できません") =
      .json (planToJson (createFallbackPlan "京都" 3 0 "観光")) 200 ∧
    validPlan (createFallbackPlan "京都" 3 0 "観光") 3) :=
  ⟨rfl, c1_fallback_structurally_valid envWithKey "test-key" kyotoBody ⟨0, 2⟩
    "本日はプランを提供できません" rfl rfl (by decide) (Or.inl rfl)⟩

/-- C2, counterexample: with the completion credential absent, the handler
answers the three-day Kyoto request with the error object at status 500,
which is not the fallback plan response. -/
theorem c2_counterexample :
    POST envNoKey (some kyotoBody) (.ok "\x7b\"days\":[]\x7d") = errorResponse ∧
    errorResponse ≠
      .json (planToJson (createFallbackPlan "京都" 3 0 "観光")) 200 := by
  refine ⟨rfl, ?_⟩
  intro h
  rw [show errorResponse =
    ApiResult.json (.obj [("error", .str "Failed to generate travel plan")]) 500
    from rfl] at h
  injection h with h1 h2
  exact absurd h2 (by decide)

/-- C2, amended: a missing completion credential, a network error, or a
non-success completion response all make the handler return the error
object with HTTP status 500 — not the fallback plan; the fallback is
reserved for successful responses whose content fails extraction or
parsing. -/
theorem c2_error_on_missing_key_or_transport (env : PlanEnv)
    (b : PlanRequestBody) (dr : DateRange) (upstream : UpstreamResult)
    (hdr : b.dateRange = some dr)
    (h : env.deepseekApiKey = none ∨ upstream = .networkError ∨
      upstream = .httpError) :
    POST env (some b) upstream =
      .json (.obj [("error", .str "Failed to generate travel plan")]) 500 :=
  POST_transport_error env b dr upstream hdr h

/-- C2, witness: the amended theorem at the Kyoto request with the
credential absent and a network error. -/
theorem c2_witness :
    kyotoBody.dateRange = some ⟨0, 2⟩ ∧
    POST envNoKey (some kyotoBody) .networkError =
      .json (.obj [("error", .str "Failed to generate travel plan")]) 500 :=
  ⟨rfl, c2_error_on_missing_key_or_transport envNoKey kyotoBody ⟨0, 2⟩
    .networkError rfl (Or.inl rfl)⟩

/-- Fixture: a successful completion response with a parseable plan of two
days, against a three-day request. -/
def c3content : String :=
  "\x7b\"destination\":\"Kyoto\",\"summary\":\"s\",\"days\":[\x7b\"day\":1\x7d,\x7b\"day\":2\x7d]\x7d"

/-- The JSON value `c3content` parses to. -/
def c3modelJson : Json :=
  .obj [("destination", .str "Kyoto"), ("summary", .str "s"),
        ("days", .arr [.obj [("day", .num 1)], .obj [("day", .num 2)]])]

/-- C3, counterexample: a parseable completion response with two days for
the three-day Kyoto request is returned as the model's plan, not discarded
for the fallback: the handler performs no day-count comparison. -/
theorem c3_counterexample :
    POST envWithKey (some kyotoBody) (.ok c3content) = .json c3modelJson 200 ∧
    jsonDaysLength c3modelJson = some 2 ∧
    POST envWithKey (some kyotoBody) (.ok c3content) ≠
      .json (planToJson (createFallbackPlan "京都" 3 0 "観光")) 200 := by
  refine ⟨rfl, rfl, ?_⟩
  intro h
  have e1 : POST envWithKey (some kyotoBody) (.ok c3content) =
      .json c3modelJson 200 := rfl
  have e2 := e1.symm.trans h
  injection e2 with e3 e4
  exact json_ne_of_daysLength (by decide) e3

/-- C3, amended: the handler performs no day-count check: whenever the
extracted span of a successful completion response parses, the parsed plan
is returned with status 200 even when its `days` count differs from the
requested `numberOfDays`. -/
theorem c3_parseable_passthrough (env : PlanEnv) (key : String)
    (b : PlanRequestBody) (dr : DateRange) (content s : String) (j : Json)
    (hk : env.deepseekApiKey = some key) (hdr : b.dateRange = some dr)
    (hs : extractJson content = some s) (hp : Json.parse s = some j)
    (hmismatch : jsonDaysLength j ≠ some (dr.toDate - dr.fromDate + 1).toNat) :
    POST env (some b) (.ok content) = .json j 200 :=
  POST_ok_passthrough env key b dr content s j hk hdr hs hp

/-- C3, witness: the amended theorem at the two-day response to the
three-day Kyoto request. -/
theorem c3_witness :
    extractJson c3content = some c3content ∧
    Json.parse c3content = some c3modelJson ∧
    jsonDaysLength c3modelJson ≠ some 3 ∧
    POST envWithKey (some kyotoBody) (.ok c3content) = .json c3modelJson 200 :=
  ⟨rfl, rfl, by decide,
   c3_parseable_passthrough envWithKey "test-key" kyotoBody ⟨0, 2⟩ c3content
     c3content c3modelJson rfl rfl rfl rfl (by decide)⟩

/-- Fixture: a completion response whose first balanced span is an empty
object but whose greedy first-to-last-brace span includes a stray closing
brace. -/
def c4content : String := "\x7b\x7d \x7d"

/-- C4, counterexample: extraction is not the first balanced span: on
`c4content` the handler's span runs from the first opening brace to the
last closing brace, fails to parse, and triggers the fallback — even
though the first balanced span parses as an (empty) object. -/
theorem c4_counterexample :
    extractJson c4content = some "\x7b\x7d \x7d" ∧
    firstBalancedSpanSpec c4content = some "\x7b\x7d" ∧
    Json.parse "\x7b\x7d" = some (.obj []) ∧
    Json.parse "\x7b\x7d \x7d" = none ∧
    POST envWithKey (some kyotoBody) (.ok c4content) =
      .json (planToJson (createFallbackPlan "京都" 3 0 "観光")) 200 :=
  ⟨rfl, rfl, rfl, rfl, rfl⟩

/-- C4, amended: extraction takes the span from the first opening brace to
the last closing brace of the response text; hence for a response that is
brace-free prose followed by one well-formed JSON object ending the text,
the embedded object is extracted exactly, and when it parses the parsed
plan is returned unchanged, ignoring the prose. -/
theorem c4_greedy_extraction_passthrough (env : PlanEnv) (key : String)
    (b : PlanRequestBody) (dr : DateRange) (proseL sL : List Char) (j : Json)
    (hk : env.deepseekApiKey = some key) (hdr : b.dateRange = some dr)
    (hp : '{' ∉ proseL) (hhead : sL.head? = some '{')
    (hlast : sL.getLast? = some '}')
    (hparse : Json.parse (String.mk sL) = some j) :
    POST env (some b) (.ok (String.mk (proseL ++ sL))) = .json j 200 :=
  POST_ok_passthrough env key b dr (String.mk (proseL ++ sL))
    (String.mk sL) j hk hdr (extractJson_prose proseL sL hp hhead hlast) hparse

/-- Fixture: a well-formed three-field plan object, for the prose-prefixed
extraction scenario. -/
def c4json : String := "\x7b\"destination\":\"Kyoto\",\"summary\":\"s\",\"days\":[]\x7d"

/-- C4, witness: the amended theorem at a response made of prose followed
by `c4json`. -/
theorem c4_witness :
    '{' ∉ "Here you go: ".data ∧
    Json.parse (String.mk c4json.data) =
      some (.obj [("destination", .str "Kyoto"), ("summary", .str "s"),
                  ("days", .arr [])]) ∧
    POST envWithKey (some kyotoBody)
        (.ok (String.mk ("Here you go: ".data ++ c4json.data))) =
      .json (.obj [("destination", .str "Kyoto"), ("summary", .str "s"),
                   ("days", .arr [])]) 200 :=
  ⟨by decide, rfl,
   c4_greedy_extraction_passthrough envWithKey "test-key" kyotoBody ⟨0, 2⟩
     "Here you go: ".data c4json.data _ rfl rfl (by decide) rfl rfl rfl⟩

/-- C5: when the completion call succeeds but its text contains no JSON
object, or the extracted span fails to parse, the handler returns the
fallback plan for the requested parameters with status 200 — not an
error. -/
theorem c5_no_json_gives_fallback (env : PlanEnv) (key : String)
    (b : PlanRequestBody) (dr : DateRange) (content : String)
    (hk : env.deepseekApiKey = some key) (hdr : b.dateRange = some dr)
    (hfail : extractJson content = none ∨
      ∃ s, extractJson content = some s ∧ Json.parse s = none) :
    POST env (some b) (.ok content) =
      .json (planToJson (createFallbackPlan b.destination
        (dr.toDate - dr.fromDate + 1) dr.fromDate b.travelStyle)) 200 :=
  POST_ok_fallback env key b dr content hk hdr hfail

/-- C5, witness: the theorem at the Kyoto request and a brace-free
response text. -/
theorem c5_witness :
    extractJson "プランをご用意できませんでした" = none ∧
    POST envWithKey (some kyotoBody) (.ok "プランをご用意できませんでした") =
      .json (planToJson (createFallbackPlan "京都" 3 0 "観光")) 200 :=
  ⟨rfl, c5_no_json_gives_fallback envWithKey "test-key" kyotoBody ⟨0, 2⟩
    "プランをご用意できませんでした" rfl rfl (Or.inl rfl)⟩

/-- C6: for every `numberOfDays ≥ 1`, the fallback plan has exactly
`numberOfDays` days, day index `i` carries day number `i+1` and date
`tripStart + i` days, and every day carries exactly the six canonical
activities at 08:00, 10:00, 12:30, 14:00, 18:00 and 20:00, with the
destination and travel style interpolated into the fixed location and
description templates. -/
theorem c6_fallback_days (destination travelStyle : String)
    (n startDate : Int) (h : 1 ≤ n) (i : Nat) (hi : i < n.toNat) :
    (createFallbackPlan destination n startDate travelStyle).days.length =
      n.toNat ∧
    (createFallbackPlan destination n startDate travelStyle).days[i]? =
      some
        { day := i + 1
          date := startDate + i
          activities :=
            [⟨"08:00", "朝食", destination ++ "のホテルレストラン",
               "ホテルでの朝食", "meal"⟩,
             ⟨"10:00", destination ++ "観光", destination ++ "の人気スポット",
               travelStyle ++ "を楽しむ", "sightseeing"⟩,
             ⟨"12:30", "昼食", destination ++ "のローカルレストラン",
               "地元の料理を楽しむ", "meal"⟩,
             ⟨"14:00", "アクティビティ", destination ++ "のアクティビティスポット",
               travelStyle ++ "に関連したアクティビティ", "sightseeing"⟩,
             ⟨"18:00", "夕食", destination ++ "の評価の高いレストラン",
               "特別な夕食", "meal"⟩,
             ⟨"20:00", "宿泊", destination ++ "のホテル",
               "快適なホテルでの宿泊", "accommodation"⟩] } := by
  constructor
  · simp [createFallbackPlan]
  · simp only [createFallbackPlan]
    rw [List.getElem?_map, List.getElem?_range hi]
    rfl

/-- C6, witness: the theorem at the three-day Kyoto fallback, day index 1. -/
theorem c6_witness :
    (1 : Int) ≤ 3 ∧ 1 < (3 : Int).toNat ∧
    ((createFallbackPlan "京都" 3 0 "観光").days.length = 3 ∧
     (createFallbackPlan "京都" 3 0 "観光").days[1]? =
       some
         { day := 2
           date := 1
           activities :=
             [⟨"08:00", "朝食", "京都のホテルレストラン", "ホテルでの朝食", "meal"⟩,
              ⟨"10:00", "京都観光", "京都の人気スポット", "観光を楽しむ",
                "sightseeing"⟩,
              ⟨"12:30", "昼食", "京都のローカルレストラン", "地元の料理を楽しむ",
                "meal"⟩,
              ⟨"14:00", "アクティビティ", "京都のアクティビティスポット",
                "観光に関連したアクティビティ", "sightseeing"⟩,
              ⟨"18:00", "夕食", "京都の評価の高いレストラン", "特別な夕食", "meal"⟩,
              ⟨"20:00", "宿泊", "京都のホテル", "快適なホテルでの宿泊",
                "accommodation"⟩] }) :=
  ⟨by decide, by decide, c6_fallback_days "京都" "観光" 3 0 (by decide) 1 (by decide)⟩

/-- Projection of an enrichment entry back to its location key. -/
theorem enrichEntry_location (fetchImage : String → Option String)
    (location : String) : (enrichEntry fetchImage location).location = location := by
  unfold enrichEntry
  cases fetchImage location with
  | none => rfl
  | some url => by_cases hu : url = "" <;> simp [hu]

/-- C7: enrichment produces exactly one entry per unique location string
across all activities of all days: its keys are the first-seen-order
deduplication of the flattened location list — without duplicates, without
omissions, as an order-preserving subsequence — and each entry's URL is
either the placeholder sentinel or the URL its location's fetch returned. -/
theorem c7_enrichment (plan : TravelPlan) (fetchImage : String → Option String) :
    ((enrichLocations plan fetchImage).map fun e => e.location) =
      uniqueLocations plan ∧
    uniqueLocations plan = dedupKeepFirst (collectLocations plan) ∧
    ((enrichLocations plan fetchImage).map fun e => e.location).Nodup ∧
    (∀ loc, loc ∈ (enrichLocations plan fetchImage).map (fun e => e.location) ↔
      loc ∈ collectLocations plan) ∧
    ((enrichLocations plan fetchImage).map fun e => e.location).Sublist
      (collectLocations plan) ∧
    ∀ e ∈ enrichLocations plan fetchImage,
      e.imageUrl = "/placeholder.svg" ∨
      ∃ url, fetchImage e.location = some url ∧ e.imageUrl = url := by
  have hmap : ((enrichLocations plan fetchImage).map fun e => e.location) =
      uniqueLocations plan := by
    rw [enrichLocations, List.map_map]
    exact (List.map_congr_left fun a _ => enrichEntry_location fetchImage a).trans
      (List.map_id _)
  refine ⟨hmap, ?_, ?_, ?_, ?_, ?_⟩
  · rw [uniqueLocations, dedupFirstAux_eq_dedupKeepFirst]
    congr 1
    exact List.filter_eq_self.mpr fun a _ => by simp
  · rw [hmap]; exact nodup_dedupFirstAux _ _
  · intro loc
    rw [hmap, uniqueLocations, mem_dedupFirstAux]
    simp
  · rw [hmap]; exact sublist_dedupFirstAux _ _
  · intro e he
    rw [enrichLocations, List.mem_map] at he
    obtain ⟨loc, -, rfl⟩ := he
    rcases hf : fetchImage loc with - | url
    · left; simp [enrichEntry, hf]
    · by_cases hu : url = ""
      · left; simp [enrichEntry, hf, hu]
      · right
        exact ⟨url, by rw [enrichEntry_location, hf],
          by simp [enrichEntry, hf, hu]⟩

/-- Fixture: a one-day plan whose first two activities share a location. -/
def c7plan : TravelPlan :=
  ⟨"京都", "概要",
   [⟨1, 0, [⟨"09:00", "観光", "清水寺", "説明", "sightseeing"⟩,
            ⟨"12:00", "昼食", "清水寺", "説明", "meal"⟩,
            ⟨"15:00", "散策", "嵐山", "説明", "sightseeing"⟩]⟩]⟩

/-- Fixture: an image fetch whose every request has a non-ok response. -/
def c7fetch : String → Option String := fun _ => none

/-- C7, witness: the theorem at `c7plan`, whose duplicated location is
collapsed to one entry, and at its first entry, which resolves to the
placeholder. -/
theorem c7_witness :
    ((enrichLocations c7plan c7fetch).map fun e => e.location) =
      uniqueLocations c7plan ∧
    uniqueLocations c7plan = ["清水寺", "嵐山"] ∧
    (⟨"清水寺", "/placeholder.svg"⟩ : ImageResult) ∈ enrichLocations c7plan c7fetch ∧
    ((⟨"清水寺", "/placeholder.svg"⟩ : ImageResult).imageUrl = "/placeholder.svg" ∨
      ∃ url, c7fetch (⟨"清水寺", "/placeholder.svg"⟩ : ImageResult).location =
        some url ∧
        (⟨"清水寺", "/placeholder.svg"⟩ : ImageResult).imageUrl = url) :=
  ⟨(c7_enrichment c7plan c7fetch).1, rfl, by decide,
   (c7_enrichment c7plan c7fetch).2.2.2.2.2 _ (by decide)⟩

/-- C8: the image-lookup handler always answers at status 200 with an
`imageUrl` value: the placeholder sentinel on a missing credential, an
unparseable request body, a network error, a non-success upstream response
or an empty result set, and the first result's link otherwise; no input
produces a hard failure. -/
theorem c8_get_images (env : ImagesEnv) (body : Option String)
    (upstream : SearchUpstream) :
    (getImagesPOST env body upstream).status = 200 ∧
    ((env.apiKey = none ∨ env.cx = none ∨ body = none ∨
      upstream = .networkError ∨ upstream = .httpError ∨ upstream = .ok []) →
      (getImagesPOST env body upstream).imageUrl = "/placeholder.svg") ∧
    (∀ key cx q item rest, env.apiKey = some key → env.cx = some cx →
      body = some q → upstream = .ok (item :: rest) →
      (getImagesPOST env body upstream).imageUrl = item.link) := by
  refine ⟨?_, ?_, ?_⟩
  · cases body with
    | none => rfl
    | some q =>
      by_cases hc : env.apiKey.isNone || env.cx.isNone
      · simp [getImagesPOST, hc]
      · cases upstream with
        | networkError => simp [getImagesPOST, hc]
        | httpError => simp [getImagesPOST, hc]
        | ok items => cases items <;> simp [getImagesPOST, hc]
  · intro h
    cases body with
    | none => rfl
    | some q =>
      rcases h with h | h | h | h | h | h
      · simp [getImagesPOST, h]
      · simp [getImagesPOST, h]
      · cases h
      · subst h
        by_cases hc : env.apiKey.isNone || env.cx.isNone <;>
          simp [getImagesPOST, hc]
      · subst h
        by_cases hc : env.apiKey.isNone || env.cx.isNone <;>
          simp [getImagesPOST, hc]
      · subst h
        by_cases hc : env.apiKey.isNone || env.cx.isNone <;>
          simp [getImagesPOST, hc]
  · intro key cx q item rest hk hc hb hu
    subst hb; subst hu
    simp [getImagesPOST, hk, hc]

/-- C8, witness: the theorem at a configured environment with one search
result, whose link is returned, and at the credential-free environment,
where the placeholder is returned. -/
theorem c8_witness :
    (getImagesPOST ⟨some "key", some "cx"⟩ (some "清水寺 京都")
      (.ok [⟨"https://example.com/a.jpg"⟩])).imageUrl =
      "https://example.com/a.jpg" ∧
    (getImagesPOST ⟨none, some "cx"⟩ (some "清水寺 京都")
      (.ok [⟨"https://example.com/a.jpg"⟩])).imageUrl = "/placeholder.svg" :=
  ⟨(c8_get_images ⟨some "key", some "cx"⟩ (some "清水寺 京都")
      (.ok [⟨"https://example.com/a.jpg"⟩])).2.2 "key" "cx" "清水寺 京都"
      ⟨"https://example.com/a.jpg"⟩ [] rfl rfl rfl rfl,
   (c8_get_images ⟨none, some "cx"⟩ (some "清水寺 京都")
      (.ok [⟨"https://example.com/a.jpg"⟩])).2.1 (Or.inl rfl)⟩

/-- C9: the fallback builder is deterministic: two invocations with equal
destination, day count, trip start and travel style yield equal plans. -/
theorem c9_deterministic (d1 d2 t1 t2 : String) (n1 n2 s1 s2 : Int)
    (hd : d1 = d2) (hn : n1 = n2) (hs : s1 = s2) (ht : t1 = t2) :
    createFallbackPlan d1 n1 s1 t1 = createFallbackPlan d2 n2 s2 t2 := by
  rw [hd, hn, hs, ht]

/-- C9, witness: the theorem at two textually identical invocations. -/
theorem c9_witness :
    ("札幌" : String) = "札幌" ∧ (2 : Int) = 2 ∧ (5 : Int) = 5 ∧
    ("グルメ" : String) = "グルメ" ∧
    createFallbackPlan "札幌" 2 5 "グルメ" = createFallbackPlan "札幌" 2 5 "グルメ" :=
  ⟨rfl, rfl, rfl, rfl,
   c9_deterministic "札幌" "札幌" "グルメ" "グルメ" 2 2 5 5 rfl rfl rfl rfl⟩

/-- C10: an unparseable request body, or a body without a `dateRange`
field (whose day-count computation throws), makes the generate-plan
handler return the error object at HTTP status 500 — never a partial or
fallback itinerary. -/
theorem c10_bad_request_is_500 (env : PlanEnv) (body : Option PlanRequestBody)
    (upstream : UpstreamResult)
    (h : body = none ∨ ∃ b, body = some b ∧ b.dateRange = none) :
    POST env body upstream =
      .json (.obj [("error", .str "Failed to generate travel plan")]) 500 :=
  POST_bad_request env body upstream h

/-- Fixture: a request body whose `dateRange` field is absent. -/
def bodyNoDateRange : PlanRequestBody := ⟨"京都", "100000", "2", none, "観光"⟩

/-- C10, witness: the theorem at an unparseable body and at a body without
`dateRange`. -/
theorem c10_witness :
    POST envWithKey none (.ok "\x7b\x7d") =
      .json (.obj [("error", .str "Failed to generate travel plan")]) 500 ∧
    POST envWithKey (some bodyNoDateRange) (.ok "\x7b\x7d") =
      .json (.obj [("error", .str "Failed to generate travel plan")]) 500 :=
  ⟨c10_bad_request_is_500 envWithKey none (.ok "\x7b\x7d") (Or.inl rfl),
   c10_bad_request_is_500 envWithKey (some bodyNoDateRange) (.ok "\x7b\x7d")
     (Or.inr ⟨bodyNoDateRange, rfl, rfl⟩)⟩
